import Mathlib

/-!
# Verification of the Ovalpha pump.fun alert bot

A shallow embedding, in Lean 4, of the behaviour of the Python sources
`bot.py`, `main.py` and `webhook.py` of the Ovalpha repository, together
with theorems settling the specification claims about alert deduplication,
alert gating, the token filter, payment verification, the simulated
auto-sell timer, the purchase flow, the auto-save tick and the USDT webhook.

Modelling conventions:
* Python `float` values (prices, FDV, volumes, multipliers, timestamps) are
  modelled as exact rationals `ℚ`; `int` counters as `ℤ`/`ℕ`.
* Python dicts that are used as insertion-ordered maps are modelled as
  association lists `List (κ × α)` with first-match lookup; assignment
  replaces the first binding in place or appends a new one at the end,
  which matches CPython dict semantics.
* HTTP calls and Telegram sends are effects outside the program; their
  responses enter the embedding as explicit arguments (`Option`-valued when
  the Python code catches exceptions from them).
* String methods (`lower`, `strip`, `in`, `startswith`, `endswith`,
  `isupper`) are re-implemented over `List Char` (ASCII reading) by
  structural recursion so that concrete instances evaluate by `decide`.
-/

namespace Ovalpha

/-- Python `int(x)` on a float: truncation toward zero (`Int.tdiv` is
truncating division). -/
def pyTrunc (q : ℚ) : ℤ := Int.tdiv q.num (q.den : ℤ)

/-- First-match lookup in an association list (CPython dict lookup). -/
def alookup {κ α : Type} [DecidableEq κ] : List (κ × α) → κ → Option α
  | [], _ => none
  | (k, v) :: t, a => if k = a then some v else alookup t a

/-- Dict assignment `d[k] = v`: replace the first binding of `k` in place,
or append a new binding at the end (CPython insertion order). -/
def aset {κ α : Type} [DecidableEq κ] : List (κ × α) → κ → α → List (κ × α)
  | [], a, v => [(a, v)]
  | (k, w) :: t, a, v => if k = a then (a, v) :: t else (k, w) :: aset t a v

/-- Dict removal `d.pop(k, None)`: drop the first binding of `k`. -/
def aerase {κ α : Type} [DecidableEq κ] : List (κ × α) → κ → List (κ × α)
  | [], _ => []
  | (k, w) :: t, a => if k = a then t else (k, w) :: aerase t a

/-- `needle` is a leading segment of `hay` (Python `str.startswith`). -/
def leadsWith : List Char → List Char → Bool
  | [], _ => true
  | _ :: _, [] => false
  | a :: as, b :: bs => a = b && leadsWith as bs

/-- Python substring containment `needle in hay`. -/
def containsSub (hay needle : List Char) : Bool :=
  match hay with
  | [] => needle.isEmpty
  | _ :: t => leadsWith needle hay || containsSub t needle

/-- Python `str.endswith`. -/
def trailsWith (hay needle : List Char) : Bool :=
  leadsWith needle.reverse hay.reverse

/-- Python `str.lower()` (ASCII reading). -/
def pyLower (s : String) : String := String.mk (s.data.map Char.toLower)

/-- Python `str.strip()` (ASCII whitespace). -/
def pyStrip (s : String) : String :=
  String.mk
    (((s.data.dropWhile Char.isWhitespace).reverse.dropWhile
      Char.isWhitespace).reverse)

/-- Python `str.isupper()` (ASCII reading: at least one letter, and no
lowercase letter). -/
def pyIsUpper (s : String) : Bool :=
  s.data.any Char.isAlpha && s.data.all (fun c => !c.isLower)

/-- `any(s[i] == s[i+1] == s[i+2] for i in range(len(s)-2))`. -/
def hasTripleRepeat : List Char → Bool
  | a :: b :: c :: t => (a = b && b = c) || hasTripleRepeat (b :: c :: t)
  | _ => false

end Ovalpha

namespace Ovalpha.BotPy

/-!
## bot.py

Constants and state from `bot.py` (the "2025 FILTERS" revision): the
module-level filter configuration (lines 73-78), the per-token record kept
in `token_db`, the watchlist, and the `process_token` filter chain
(lines 474-613).
-/

def MIN_FDVS_SNIPE : ℚ := 5000

def MAX_FDVS_SNIPE : ℚ := 3000000

def MAX_VOL_SNIPE : ℚ := 40000

def MIN_HOLDERS : ℤ := 10

def BOT_USERNAME : String := "onionx_bot"

/-- One `token_db[mint]` record, as built by the scanner. -/
structure TokenInfo where
  symbol : String
  fdv : ℚ
  launched : ℚ
  alerted : Bool
  liquidity : ℚ
  vol_5m : ℚ
  holders : ℤ
  deriving DecidableEq

/-- One `watchlist[mint]` record. -/
structure WatchEntry where
  added_at : ℚ
  launched : ℚ
  deriving DecidableEq

/-- The alert handed to `broadcast_alert(mint, symbol, fdv, age // 60)`. -/
structure AlertEv where
  mint : String
  sym : String
  fdv : ℚ
  age_min : ℤ
  deriving DecidableEq

/-- `rug_words` of `process_token` (line 537). -/
def rug_words : List String :=
  ["scam", "rug", "fake", "test", "dev", "dead", "rip", "honeypot",
   "taxed", "airdrop", "free", "giveaway"]

/-- The special-character set of check 5 of `process_token` (line 577):
the Python literal is the string of all ASCII punctuation; the brace,
apostrophe and backtick characters are written via their codes. -/
def specialChars : List Char :=
  ['!', '@', '#', '$', '%', '^', '&', '*', '(', ')', '_', '+', '-', '=',
   '[', ']', Char.ofNat 123, Char.ofNat 125, '|', ';', Char.ofNat 39,
   ':', ',', '.', '<', '>', '?', '/', '~', Char.ofNat 96]

/-- Characters of the `startswith` tuple of check 4 (line 563). -/
def badLeadChars : List Char :=
  ['$', '0', '1', '2', '3', '4', '5', '6', '7', '8', '9', '.', '-', '_']

/-- Suffixes of the `endswith` tuple of check 4 (line 569). -/
def badTailStrs : List String :=
  ["2", "3", "4", "5", "6", "7", "8", "9", "10", ".sol", ".pump"]

/-- The dynamic age window of `process_token`: `5 <= age <= 70` for
FDV below 50k, else `10 <= age <= 360`. -/
def ageOk (fdv : ℚ) (age : ℤ) : Prop :=
  if fdv < 50000 then 5 ≤ age ∧ age ≤ 70 else 10 ≤ age ∧ age ≤ 360

instance (fdv : ℚ) (age : ℤ) : Decidable (ageOk fdv age) := by
  unfold ageOk; infer_instance

/-- The symbol blacklist heuristics of `process_token` (checks 1-7,
lines 534-599), as a single pass/fail predicate on the symbol and FDV. -/
def symbolOk (symbol : String) (fdv : ℚ) : Prop :=
  let lower_sym := (pyStrip (pyLower symbol)).data
  (∀ w ∈ rug_words, containsSub lower_sym w.data = false) ∧
  ¬(containsSub lower_sym "dev".data = true ∧ fdv < 250000) ∧
  symbol.data.length ≤ 15 ∧
  (∀ c ∈ badLeadChars, leadsWith [c] symbol.data = false) ∧
  ¬((∃ t ∈ badTailStrs, trailsWith symbol.data t.data = true) ∧
      symbol.data.length < 8) ∧
  (symbol.data.countP (fun c => specialChars.contains c)) < 3 ∧
  ¬(pyIsUpper symbol = true ∧ symbol.data.length ≤ 6) ∧
  hasTripleRepeat symbol.data = false

instance (symbol : String) (fdv : ℚ) : Decidable (symbolOk symbol fdv) := by
  unfold symbolOk; infer_instance

/-- Result of one `process_token(mint, now)` call: the updated `token_db`
and `watchlist`, and the alert broadcast, if any. -/
structure StepOut where
  db : List (String × TokenInfo)
  wl : List (String × WatchEntry)
  event : Option AlertEv

/-- `watchlist[mint] = {...}` guarded by `if mint not in watchlist`. -/
def wlAdd (wl : List (String × WatchEntry)) (mint : String) (now launched : ℚ) :
    List (String × WatchEntry) :=
  if (alookup wl mint).isSome then wl else aset wl mint ⟨now, launched⟩

/-- `process_token(mint, now)` (bot.py lines 474-613): early return when the
mint is unknown or already alerted; then the dynamic age window, the core
FDV / volume / holders / liquidity thresholds (hard-coded in the body:
5k-2M FDV, 25k volume, 5 holders, 20% liquidity), and the symbol
blacklist; each failing check adds the mint to the watchlist and returns
with no alert; on success `alerted` is set before the broadcast and the
mint leaves the watchlist. -/
def processToken (db : List (String × TokenInfo))
    (wl : List (String × WatchEntry)) (mint : String) (now : ℚ) : StepOut :=
  match alookup db mint with
  | none => ⟨db, wl, none⟩
  | some info =>
    if info.alerted then ⟨db, wl, none⟩
    else
      let age : ℤ := pyTrunc (now - info.launched)
      if ¬ageOk info.fdv age then
        ⟨db, wlAdd wl mint now info.launched, none⟩
      else if ¬(5000 ≤ info.fdv ∧ info.fdv ≤ 2000000) then
        ⟨db, wlAdd wl mint now info.launched, none⟩
      else if info.vol_5m > 25000 then
        ⟨db, wlAdd wl mint now info.launched, none⟩
      else if info.holders < 5 then
        ⟨db, wlAdd wl mint now info.launched, none⟩
      else if info.liquidity < info.fdv * (0.20 : ℚ) then
        ⟨db, wlAdd wl mint now info.launched, none⟩
      else if ¬symbolOk info.symbol info.fdv then
        ⟨db, wlAdd wl mint now info.launched, none⟩
      else
        ⟨aset db mint { info with alerted := true }, aerase wl mint,
         some ⟨mint, info.symbol, info.fdv, Int.tdiv age 60⟩⟩

/-- The filter as claim C3 words it (for refutation): the module-level
configuration constants of bot.py lines 73-78, with the same age window
and symbol heuristics. -/
def claimC3Checks (info : TokenInfo) (now : ℚ) : Prop :=
  MIN_FDVS_SNIPE ≤ info.fdv ∧ info.fdv ≤ MAX_FDVS_SNIPE ∧
  info.vol_5m ≤ MAX_VOL_SNIPE ∧ MIN_HOLDERS ≤ info.holders ∧
  info.fdv * (0.20 : ℚ) ≤ info.liquidity ∧
  ageOk info.fdv (pyTrunc (now - info.launched)) ∧
  symbolOk info.symbol info.fdv

/-- A token inside the configured FDV bounds (2.5M ≤ MAX_FDVS_SNIPE = 3M)
that passes every other check of claim C3, yet is rejected by
`process_token`, whose body hard-codes a 2M FDV cap. -/
def cexTokenC3 : TokenInfo :=
  { symbol := "Bonkers", fdv := 2500000, launched := 0, alerted := false,
    liquidity := 600000, vol_5m := 0, holders := 100 }

/-- A token that passes every hard-coded check of `process_token`. -/
def passTokenC3 : TokenInfo :=
  { symbol := "Bonkers", fdv := 100000, launched := 0, alerted := false,
    liquidity := 30000, vol_5m := 0, holders := 10 }

/-- `token_db[m]` exists and is already alerted. -/
def alertedAt (db : List (String × TokenInfo)) (m : String) : Prop :=
  ∃ i, alookup db m = some i ∧ i.alerted = true

/-- Result of a sequence of `process_token` calls. -/
structure RunOut where
  db : List (String × TokenInfo)
  wl : List (String × WatchEntry)
  events : List AlertEv

/-- Iterate `process_token` over a queue of `(mint, now)` calls, collecting
every alert handed to `broadcast_alert`.  The scanner and the watchlist
monitor both call `process_token`; `alerted` is read and written before the
first `await` of the call, so under the single event loop the calls
sequence exactly like this. -/
def runProcess (db : List (String × TokenInfo))
    (wl : List (String × WatchEntry)) :
    List (String × ℚ) → RunOut
  | [] => ⟨db, wl, []⟩
  | (m, now) :: rest =>
    let s := processToken db wl m now
    let r := runProcess s.db s.wl rest
    ⟨r.db, r.wl, s.event.toList ++ r.events⟩

end Ovalpha.BotPy

namespace Ovalpha.MainPy

/-!
## main.py

The alert levels and thresholds of `main.py`, the snipe-logic block of
`premium_pump_scanner` (lines 419-438) with its per-mint `token_state`
"sent" set, the per-user alert gate of `broadcast` (lines 654-667), the
`/pay` verification (lines 511-545), and the `handle_amount` purchase flow
(lines 593-649).
-/

def PRICE_PREMIUM : ℚ := 29.99

def MIN_FDVS_SNIPE : ℚ := 2500

def MAX_VOL_SNIPE : ℚ := 80

def MIN_VOL_CONFIRM : ℚ := 250

def MIN_FDVS_CONFIRM : ℚ := 8000

def MIN_VOL_PUMP : ℚ := 700

/-- The three `token_state`-gated alert levels of the snipe logic. -/
inductive Level where
  | snipe
  | confirm
  | pump
  deriving DecidableEq

/-- `volume_hist[mint].append(v)` on a `deque(maxlen=4)`. -/
def pushMax4 (d : List ℚ) (v : ℚ) : List ℚ :=
  let d' := d ++ [v]
  if d'.length ≤ 4 then d' else d'.drop (d'.length - 4)

/-- The level decision of lines 424-429, on the volume history with the
current volume already appended (`hist[-2]` is the previous cycle's
volume). -/
def levelOf (fdv vol : ℚ) (hist : List ℚ) : Option Level :=
  if MIN_FDVS_SNIPE ≤ fdv ∧ vol ≤ MAX_VOL_SNIPE then some .snipe
  else if MIN_FDVS_CONFIRM ≤ fdv ∧ MIN_VOL_CONFIRM ≤ vol then some .confirm
  else if 2 ≤ hist.length ∧ (hist.getD (hist.length - 2) 0) * 3 ≤ vol ∧
      MIN_VOL_PUMP ≤ vol then some .pump
  else none

/-- Result of one pass of the snipe-logic block for one pair. -/
structure SnipeOut where
  ts : List (String × List Level)
  hist : List (String × List ℚ)
  event : Option (String × Level)

/-- The snipe-logic block of `premium_pump_scanner` (lines 419-438) for a
pair that reached it: append the volume to the mint's history, compute the
level, and broadcast it only if the level is not yet in the mint's
`token_state` "sent" set, adding it to the set before the broadcast. -/
def snipeStep (ts : List (String × List Level))
    (hist : List (String × List ℚ)) (mint : String) (fdv vol : ℚ) :
    SnipeOut :=
  let h1 := pushMax4 ((alookup hist mint).getD []) vol
  let hist' := aset hist mint h1
  match levelOf fdv vol h1 with
  | none => ⟨ts, hist', none⟩
  | some l =>
    let sent := (alookup ts mint).getD []
    if l ∈ sent then ⟨ts, hist', none⟩
    else ⟨aset ts mint (l :: sent), hist', some (mint, l)⟩

/-- Level `l` is in the "sent" set of `token_state[m]`. -/
def sentAt (ts : List (String × List Level)) (m : String) (l : Level) :
    Prop := l ∈ (alookup ts m).getD []

/-- Result of a sequence of snipe-logic passes. -/
structure SnipeRunOut where
  ts : List (String × List Level)
  hist : List (String × List ℚ)
  events : List (String × Level)

/-- Iterate the snipe-logic block over a list of `(mint, fdv, vol)` pairs,
collecting the `(mint, level)` alerts broadcast. -/
def runSnipe (ts : List (String × List Level))
    (hist : List (String × List ℚ)) :
    List (String × ℚ × ℚ) → SnipeRunOut
  | [] => ⟨ts, hist, []⟩
  | (m, fdv, vol) :: rest =>
    let s := snipeStep ts hist m fdv vol
    let r := runSnipe s.ts s.hist rest
    ⟨r.ts, r.hist, s.event.toList ++ r.events⟩

end Ovalpha.MainPy

namespace Ovalpha.BotPy

/-- One entry of a user's `trades` list, as appended by `jupiter_buy`
(lines 408-412) and updated by `check_auto_sell` (line 703). `profit` is
absent until the trade is closed. -/
structure Trade where
  mint : String
  cost_usd : ℚ
  amount_sol : ℚ
  status : String
  tp : ℚ
  sl : ℚ
  buy_time : ℚ
  profit : Option ℚ := none
  deriving DecidableEq

/-- One `users[uid]` record of bot.py (created in `start`, line 173). -/
structure User where
  free_alerts : ℤ
  paid : Bool
  chat_id : Option ℤ
  wallet : Option String
  bsc_wallet : Option String
  default_buy_sol : ℚ
  default_tp : ℚ
  default_sl : ℚ
  trades : List Trade
  connect_challenge : Option String := none
  connect_expiry : Option ℚ := none
  deriving DecidableEq

/-- The per-user body of `broadcast_alert` (lines 679-686): a user is sent
the alert when paid or with free alerts left; the free-alert decrement for
a non-paid user happens after the send inside the `try`, so a failed send
(`sendOk = false`) is swallowed by `except: pass` with no decrement.
Returns the updated record and whether the alert was delivered. -/
def broadcastAlertUser (sendOk : Bool) (u : User) : User × Bool :=
  if u.paid || u.free_alerts > 0 then
    if sendOk then
      ((if u.paid then u else { u with free_alerts := u.free_alerts - 1 }),
        true)
    else (u, false)
  else (u, false)

/-- `broadcast_alert` over the `users` dict: every user is visited in
order; returns the updated users and the uids the alert was delivered
to. -/
def broadcast_alert (sendOk : ℤ → Bool) :
    List (ℤ × User) → List (ℤ × User) × List ℤ
  | [] => ([], [])
  | (uid, u) :: t =>
    let p := broadcastAlertUser (sendOk uid) u
    let r := broadcast_alert sendOk t
    ((uid, p.1) :: r.1, (if p.2 then [uid] else []) ++ r.2)

/-- The per-trade body of `check_auto_sell` (lines 691-704): a non-open
trade is skipped; an open trade closes exactly when the drawn multiplier
reaches the take-profit or falls to `1 - sl`; on closing the gross profit
is `cost_usd * (mult - 1)`, a 1% fee is taken into global revenue, the
wins counter increments iff `mult >= 1.5`, and the trade becomes "sold"
with the net profit recorded. Returns (trade, revenue, wins). -/
def checkAutoSellTrade (t : Trade) (mult revenue : ℚ) (wins : ℕ) :
    Trade × ℚ × ℕ :=
  if t.status ≠ "open" then (t, revenue, wins)
  else if t.tp ≤ mult ∨ mult ≤ 1 - t.sl then
    let profit := t.cost_usd * (mult - 1)
    let fee := profit * (0.01 : ℚ)
    ({ t with status := "sold", profit := some (profit - fee) },
      revenue + fee, if (1.5 : ℚ) ≤ mult then wins + 1 else wins)
  else (t, revenue, wins)

/-- `quote["routes"][0]`: opaque to the embedding, it is only forwarded to
the Jupiter SDK's swap call. -/
structure QuoteRoute where
  id : String
  deriving DecidableEq

/-- The external responses a successful Jupiter attempt sees: the quote's
route list and the base64 serialization of the swap transaction returned
by `jupiter_client.swap`. -/
structure JupResponses where
  routes : List QuoteRoute
  swapTxB64 : String
  deriving DecidableEq

/-- The reply `jupiter_buy` sends to the chat. The code never signs or
submits a transaction itself: the only success shape is a Phantom
`signAndSendTransaction` deep link. -/
inductive BuyResult where
  | walletMissing
  | noRoute
  | buyFailed
  | deepLink (url : String)
  deriving DecidableEq

/-- `deepLink`ness of a `jupiter_buy` reply. -/
def isDeepLinkB : BuyResult → Bool
  | .deepLink _ => true
  | _ => false

/-- Result of one `jupiter_buy(uid, mint, sol_amount)` call. -/
structure BuyOut where
  user : User
  revenue : ℚ
  total_trades : ℕ
  reply : BuyResult
  deriving DecidableEq

/-- `jupiter_buy` (bot.py lines 381-429): no connected wallet aborts;
`net = none` models all three retry attempts raising (the loop then
reports failure); an empty route list aborts with "No route."; otherwise
the swap transaction is wrapped in a Phantom deep link, a 1% fee on the
`sol_amount * 180` cost estimate is added to revenue, and a trade with
status "pending" is appended. -/
def jupiter_buy (u : User) (mint : String) (sol_amount revenue : ℚ)
    (total_trades : ℕ) (net : Option JupResponses) (now : ℚ) : BuyOut :=
  if u.wallet = none then ⟨u, revenue, total_trades, .walletMissing⟩
  else
    match net with
    | none => ⟨u, revenue, total_trades, .buyFailed⟩
    | some resp =>
      if resp.routes = [] then ⟨u, revenue, total_trades, .noRoute⟩
      else
        let sign_url := "https://phantom.app/ul/v1/signAndSendTransaction?tx="
          ++ resp.swapTxB64 ++ "&redirect_link=https://t.me/" ++ BOT_USERNAME
        let cost_usd := sol_amount * 180
        let fee_usd := cost_usd * (0.01 : ℚ)
        ⟨{ u with trades := u.trades ++
            [{ mint := mint, cost_usd := cost_usd - fee_usd,
               amount_sol := sol_amount, status := "pending",
               tp := u.default_tp, sl := u.default_sl, buy_time := now }] },
          revenue + fee_usd, total_trades + 1, .deepLink sign_url⟩

end Ovalpha.BotPy

namespace Ovalpha

/-- Characters `urllib.parse.quote` leaves unescaped (default
`safe='/'`). -/
def quoteSafe (c : Char) : Bool :=
  c.isAlphanum || c = '_' || c = '.' || c = '-' || c = '~' || c = '/'

/-- Characters `urllib.parse.quote_plus` (via `urlencode`) leaves
unescaped. -/
def quotePlusSafe (c : Char) : Bool :=
  c.isAlphanum || c = '_' || c = '.' || c = '-' || c = '~'

/-- One hex digit, uppercase. -/
def hexDigit (n : ℕ) : Char :=
  if n < 10 then Char.ofNat (48 + n) else Char.ofNat (55 + n)

/-- Percent-escape of one ASCII byte. -/
def pctEscape (c : Char) : List Char :=
  ['%', hexDigit (c.toNat / 16), hexDigit (c.toNat % 16)]

/-- `urllib.parse.quote(s)` (ASCII reading). -/
def pyQuote (s : String) : String :=
  String.mk (s.data.foldr
    (fun c acc => if quoteSafe c then c :: acc else pctEscape c ++ acc) [])

/-- `urllib.parse.quote_plus(s)` (ASCII reading): space becomes `+`. -/
def pyQuotePlus (s : String) : String :=
  String.mk (s.data.foldr
    (fun c acc =>
      if c = ' ' then '+' :: acc
      else if quotePlusSafe c then c :: acc else pctEscape c ++ acc) [])

end Ovalpha

namespace Ovalpha.MainPy

/-- The `pending_buy` record set by the BUY NOW button (line 590). -/
structure PendingBuy where
  mint : String
  time : ℚ
  deriving DecidableEq

/-- One `users[uid]` record of main.py (created in `start`, line 477;
referral bookkeeping fields are omitted: no claim concerns them). -/
structure User where
  free_alerts : ℤ
  paid : Bool
  paid_until : Option ℕ
  chat_id : Option ℤ
  wallet : Option String
  pending_buy : Option PendingBuy
  username : String
  deriving DecidableEq

/-- The per-user body of `broadcast` (lines 656-667): a user without a
`chat_id` is skipped outright; otherwise the alert goes to paid users and
to users with free alerts left, decrementing the counter for non-paid
recipients (`safe_send` swallows all send errors, so the decrement is
unconditional on delivery). Returns the updated record and whether the
alert was sent. -/
def broadcastUser (u : User) : User × Bool :=
  match u.chat_id with
  | none => (u, false)
  | some _ =>
    if u.paid || u.free_alerts > 0 then
      ((if u.paid then u else { u with free_alerts := u.free_alerts - 1 }),
        true)
    else (u, false)

/-- `broadcast` over the `users` dict, returning the updated users and the
uids reached. -/
def broadcast : List (ℤ × User) → List (ℤ × User) × List ℤ
  | [] => ([], [])
  | (uid, u) :: t =>
    let p := broadcastUser u
    let r := broadcast t
    ((uid, p.1) :: r.1, (if p.2 then [uid] else []) ++ r.2)

/-- One entry of the BscScan `tokentx` result list read by `/pay`:
`value` is the raw integer token amount (the code divides it by 1e18). -/
structure BscTx where
  hash : String
  value : ℚ
  tokenSymbol : String
  deriving DecidableEq

/-- The BscScan response: `status` and `result`. -/
structure BscResp where
  status : String
  result : List BscTx
  deriving DecidableEq

/-- The reply `/pay` sends. -/
inductive PayReply where
  | bscError
  | invalidTx
  | checkFailed
  | activated
  deriving DecidableEq

/-- The transaction scan of `pay` (lines 529-541): entries whose hash does
not equal the TXID case-insensitively are skipped; the first entry with
matching hash, tokenSymbol "USDT" and `value / 1e18 >= PRICE_PREMIUM`
activates; a matching hash failing those checks lets the loop continue. -/
def findPayTx (txid : String) : List BscTx → Option BscTx
  | [] => none
  | tx :: rest =>
    if pyLower tx.hash ≠ pyLower txid then findPayTx txid rest
    else if tx.tokenSymbol = "USDT" ∧
        PRICE_PREMIUM ≤ tx.value / (10 ^ 18 : ℚ) then some tx
    else findPayTx txid rest

/-- `/pay TXID` (lines 511-545) acting on the invoking user's record:
`resp = none` models the `requests.get` call (or anything after it)
raising, answered "Check failed."; a BscScan status other than "1" is
answered "BscScan error."; a qualifying transaction sets `paid`,
`paid_until` thirty days ahead and zeroes `free_alerts` (commission
tracking touches only the referrer's record and global revenue); otherwise
the reply is "Invalid TX / amount.". `now` is the current epoch second. -/
def pay (resp : Option BscResp) (txid : String) (u : User) (now : ℕ) :
    User × PayReply :=
  match resp with
  | none => (u, .checkFailed)
  | some r =>
    if r.status ≠ "1" then (u, .bscError)
    else
      match findPayTx txid r.result with
      | some _ =>
        ({ u with
            paid := true
            paid_until := some (now + 30 * 86400)
            free_alerts := 0 }, .activated)
      | none => (u, .invalidTx)

/-- The external responses `handle_amount` sees: the SOL price, and the
`swapTransaction` field of the Jupiter swap response (absent when the swap
failed). -/
structure SwapNet where
  sol_price : ℚ
  swapTransaction : Option String
  deriving DecidableEq

/-- The reply `handle_amount` produces. -/
inductive AmountResult where
  | ignoredNoPending
  | ignoredExpired
  | invalidNumber
  | swapFailed
  | deepLink (url : String)
  deriving DecidableEq

/-- `deepLink`ness of a `handle_amount` reply. -/
def isDeepLinkM : AmountResult → Bool
  | .deepLink _ => true
  | _ => false

/-- `handle_amount` (main.py lines 593-649): without a fresh pending buy
the message is ignored (an expired pending buy is dropped); `text = none`
models `float()` raising, and amounts below one dollar are refused, both
keeping the pending buy; otherwise the pending buy is consumed and, when
the swap response carries a transaction, the reply is the Phantom
`signAndSendTransaction` deep link over the percent-escaped base64
transaction; a missing `swapTransaction` is answered "Swap failed". -/
def handle_amount (u : User) (text : Option ℚ) (now : ℚ) (net : SwapNet) :
    User × AmountResult :=
  match u.pending_buy with
  | none => (u, .ignoredNoPending)
  | some pending =>
    if now - pending.time > 60 then
      ({ u with pending_buy := none }, .ignoredExpired)
    else
      match text with
      | none => (u, .invalidNumber)
      | some usd =>
        if usd < 1 then (u, .invalidNumber)
        else
          let u' := { u with pending_buy := none }
          match net.swapTransaction with
          | none => (u', .swapFailed)
          | some tx_b64 =>
            (u', .deepLink
              ("https://phantom.app/ul/v1/signAndSendTransaction?tx="
                ++ pyQuote tx_b64 ++ "&cluster=mainnet-beta"))

end Ovalpha.MainPy

namespace Ovalpha.BotPy

/-- The in-memory `data` object of bot.py, with the `users` dict mapping
uids to the heap addresses of the shared user-record objects.  The heap
(`ℕ → Option User`) makes Python's object identity explicit: `data.copy()`
in `auto_save` is a shallow copy, so the copy's `"users"` entry is the
same dict holding the same record addresses. -/
structure DataObj where
  users : List (ℤ × ℕ)
  revenue : ℚ
  total_trades : ℕ
  wins : ℕ

/-- In-place mutation of the record object at address `a`. -/
def heapModify (h : ℕ → Option User) (a : ℕ) (f : User → User) :
    ℕ → Option User :=
  fun x => if x = a then (h a).map f else h x

/-- `build_connect_url(uid)` (lines 153-162): stores a connect challenge
and a five-minute expiry on the user's live record, and returns the
Phantom connect URL (urlencoded parameters).  An unknown uid raises
`KeyError` in Python: no mutation, no URL. -/
def build_connect_url (h : ℕ → Option User) (d : DataObj) (uid : ℤ)
    (now : ℚ) : (ℕ → Option User) × Option String :=
  match alookup d.users uid with
  | none => (h, none)
  | some addr =>
    (heapModify h addr (fun u =>
      { u with
          connect_challenge := some ("connect_" ++ toString uid)
          connect_expiry := some (now + 300) }),
     some ("https://phantom.app/ul/v1/connect?app_url="
        ++ pyQuotePlus ("https://t.me/" ++ BOT_USERNAME)
        ++ "&redirect_link="
        ++ pyQuotePlus ("https://t.me/" ++ BOT_USERNAME ++ "?start=connect_"
            ++ toString uid)))

/-- The `u.pop("connect_challenge", None); u.pop("connect_expiry", None)`
pair of `auto_save` (lines 134-135), as an in-place record mutation. -/
def popConnectKeys (u : User) : User :=
  { u with connect_challenge := none, connect_expiry := none }

/-- One iteration of the `auto_save` loop body (lines 130-136):
`saveable = data.copy()` only copies the top-level dict, so
`saveable["users"]` is the same dict of the same record objects; the
`u.pop("connect_challenge")` / `u.pop("connect_expiry")` calls therefore
mutate every live user record, and the JSON written is serialized from
those same mutated records.  Returns the heap after the tick and the
serialized user records. -/
def auto_save (h : ℕ → Option User) (d : DataObj) :
    (ℕ → Option User) × List (ℤ × Option User) :=
  let h' := d.users.foldl
    (fun hh p => heapModify hh p.2 popConnectKeys) h
  (h', d.users.map (fun p => (p.1, h' p.2)))

end Ovalpha.BotPy

namespace Ovalpha.WebhookPy

/-!
## webhook.py

The `POST /usdt-webhook` endpoint (lines 37-60): secret-header check,
Transfer-log scan, and per-user activation.
-/

/-- `REQUIRED_USDT = 29.99 * 1e6` (line 21), compared against the raw
`uint256` Transfer value. -/
def REQUIRED_USDT : ℚ := 29.99 * 1000000

/-- One decoded `Transfer` event of the receipt: `sender`/`recipient` are
`log["args"]["from"]`/`["to"]`, `value` the raw integer token amount. -/
structure TransferEv where
  sender : String
  recipient : String
  value : ℚ
  deriving DecidableEq

/-- The fields of a `data.json` user record the webhook touches. -/
structure WUser where
  chat_id : Option ℤ
  paid : Bool
  free_alerts : ℤ
  bsc_wallet : Option String
  deriving DecidableEq

/-- The endpoint's outcome: HTTP 403, or a JSON body with the persisted
users as saved. -/
inductive WebhookOut where
  | forbidden
  | response (users : List (String × WUser)) (status : String)
  deriving DecidableEq

/-- The inner user loop (lines 49-56): activate the first user whose
`bsc_wallet` equals the Transfer's sender case-insensitively (a record
without the key compares as `""`). -/
def activateFirst (sender : String) :
    List (String × WUser) → Option (List (String × WUser))
  | [] => none
  | (uid, u) :: t =>
    if pyLower (u.bsc_wallet.getD "") = pyLower sender then
      some ((uid, { u with paid := true, free_alerts := 999 }) :: t)
    else (activateFirst sender t).map (fun l => (uid, u) :: l)

/-- The Transfer loop (lines 46-57): the first qualifying Transfer — paid
to the configured wallet, raw value at least `REQUIRED_USDT` — whose
sender matches some user activates that user and answers "activated";
otherwise the scan continues, ending in "ignored". -/
def processLogs (wallet : String) (users : List (String × WUser)) :
    List TransferEv → WebhookOut
  | [] => .response users "ignored"
  | ev :: rest =>
    if pyLower ev.recipient = pyLower wallet ∧ REQUIRED_USDT ≤ ev.value then
      match activateFirst ev.sender users with
      | some users' => .response users' "activated"
      | none => processLogs wallet users rest
    else processLogs wallet users rest

/-- `usdt_webhook` (lines 37-60): HTTP 403 unless the `X-Secret` header
equals the configured secret; then `receipt = none` models
`get_transaction_receipt` (or the log decoding) raising, answered
`{"status": "error"}` with no state change; otherwise the Transfer scan
runs. -/
def usdt_webhook (xSecret cfgSecret : Option String) (wallet : String)
    (receipt : Option (List TransferEv))
    (users : List (String × WUser)) : WebhookOut :=
  if xSecret ≠ cfgSecret then .forbidden
  else
    match receipt with
    | none => .response users "error"
    | some logs => processLogs wallet users logs

end Ovalpha.WebhookPy

namespace Ovalpha

/-- A paid user whose `chat_id` is unset: main.py's `broadcast` skips
them, refuting claim C2's "delivered exactly to those users who are paid
or have free_alerts > 0" as stated. -/
def cexUserC2 : MainPy.User :=
  { free_alerts := 0, paid := true, paid_until := none, chat_id := none,
    wallet := none, pending_buy := none, username := "u" }

/-- A non-paid user with two free alerts and a chat id. -/
def wUserC2 : MainPy.User :=
  { free_alerts := 2, paid := false, paid_until := none, chat_id := some 5,
    wallet := none, pending_buy := none, username := "w" }

/-- A non-paid user with one free alert and a chat id. -/
def wUserC10 : MainPy.User :=
  { free_alerts := 1, paid := false, paid_until := none, chat_id := some 9,
    wallet := none, pending_buy := none, username := "x" }

/-- An open trade bought at 100 dollars with a 2x take-profit and a 38%
stop loss. -/
def t0C7 : BotPy.Trade :=
  { mint := "M", cost_usd := 100, amount_sol := 1, status := "open",
    tp := 2, sl := 0.38, buy_time := 0 }

/-- A user with a connected wallet and no trades. -/
def u0C5 : BotPy.User :=
  { free_alerts := 3, paid := false, chat_id := some 1, wallet := some "W",
    bsc_wallet := none, default_buy_sol := 0.1, default_tp := 2.8,
    default_sl := 0.38, trades := [] }

/-- A successful Jupiter response with one route. -/
def respC5 : BotPy.JupResponses :=
  { routes := [{ id := "r0" }], swapTxB64 := "TX64" }

/-- A user without a connected wallet. -/
def u0C6 : BotPy.User :=
  { free_alerts := 3, paid := false, chat_id := some 1, wallet := none,
    bsc_wallet := none, default_buy_sol := 0.1, default_tp := 2.8,
    default_sl := 0.38, trades := [] }

/-- A successful Jupiter response with one route. -/
def respC6 : BotPy.JupResponses :=
  { routes := [{ id := "r1" }], swapTxB64 := "TX64" }

/-- A user with a connected wallet (no private key exists anywhere). -/
def uWC6 : BotPy.User :=
  { free_alerts := 0, paid := true, chat_id := some 2, wallet := some "W2",
    bsc_wallet := none, default_buy_sol := 0.1, default_tp := 2.8,
    default_sl := 0.38, trades := [] }

/-- A BscScan response holding one 30-USDT transfer. -/
def rC4 : MainPy.BscResp :=
  { status := "1",
    result := [{ hash := "0xAB", value := 30 * 10 ^ 18,
                 tokenSymbol := "USDT" }] }

/-- A free user about to pay. -/
def uC4 : MainPy.User :=
  { free_alerts := 3, paid := false, paid_until := none, chat_id := some 1,
    wallet := none, pending_buy := none, username := "p" }

/-- The record at address 0. -/
def u0C8 : BotPy.User :=
  { free_alerts := 3, paid := false, chat_id := some 7, wallet := none,
    bsc_wallet := none, default_buy_sol := 0.1, default_tp := 2.8,
    default_sl := 0.38, trades := [] }

/-- A one-user heap: uid 7 lives at address 0. -/
def h0C8 : ℕ → Option BotPy.User :=
  fun a => if a = 0 then some u0C8 else none

/-- The bot.py data object for that heap. -/
def d0C8 : BotPy.DataObj :=
  { users := [(7, 0)], revenue := 0, total_trades := 0, wins := 0 }

/-- What the record at address 0 is after the save tick. -/
def clearedC8 : BotPy.User :=
  { u0C8 with connect_challenge := none, connect_expiry := none }

/-- A registered user whose BSC wallet is the dust sender. -/
def wu0C9 : WebhookPy.WUser :=
  { chat_id := some 7, paid := false, free_alerts := 3,
    bsc_wallet := some "0xABC" }

/-- The same user after the webhook marks them premium. -/
def wu1C9 : WebhookPy.WUser :=
  { wu0C9 with paid := true, free_alerts := 999 }

end Ovalpha

/-! ## Theorems -/

namespace Ovalpha

theorem alookup_aset_self {κ α : Type} [DecidableEq κ]
    (l : List (κ × α)) (k : κ) (v : α) : alookup (aset l k v) k = some v := by
  induction l with
  | nil => simp [aset, alookup]
  | cons h t ih =>
    obtain ⟨k', v'⟩ := h
    by_cases hk : k' = k <;> simp [aset, alookup, hk, ih]

theorem alookup_aset_ne {κ α : Type} [DecidableEq κ]
    (l : List (κ × α)) (k a : κ) (v : α) (h : a ≠ k) :
    alookup (aset l k v) a = alookup l a := by
  induction l with
  | nil => simp [aset, alookup, Ne.symm h]
  | cons hd t ih =>
    obtain ⟨k', v'⟩ := hd
    by_cases hk : k' = k
    · subst hk
      simp [aset, alookup, Ne.symm h]
    · simp only [aset, if_neg hk, alookup]
      by_cases hka : k' = a <;> simp [hka, ih]

open BotPy

/-- C3 (counterexample): a token satisfying every check of claim C3 as
stated — FDV within the configured `MIN_FDVS_SNIPE..MAX_FDVS_SNIPE`
bounds, volume below `MAX_VOL_SNIPE`, holders above `MIN_HOLDERS`,
20% liquidity, age in window, clean symbol — for which `process_token`
nevertheless raises no alert: its body hard-codes a 2,000,000 FDV cap
(line 502) instead of `MAX_FDVS_SNIPE = 3,000,000`. -/
theorem claim_C3_counterexample :
    claimC3Checks cexTokenC3 100 ∧
    (processToken [("M", cexTokenC3)] [] "M" 100).event = none := by
  constructor
  · refine ⟨?_, ?_, ?_, ?_, ?_, ?_, ?_⟩
    · norm_num [cexTokenC3, MIN_FDVS_SNIPE]
    · norm_num [cexTokenC3, MAX_FDVS_SNIPE]
    · norm_num [cexTokenC3, MAX_VOL_SNIPE]
    · norm_num [cexTokenC3, MIN_HOLDERS]
    · norm_num [cexTokenC3]
    · norm_num [cexTokenC3, ageOk, pyTrunc]
    · rw [show cexTokenC3.symbol = "Bonkers" from rfl]
      refine ⟨by decide, ?_, by decide, by decide, by decide, by decide,
        by decide, by decide⟩
      rintro ⟨-, h⟩
      norm_num [cexTokenC3] at h
  · norm_num [processToken, alookup, cexTokenC3, ageOk, pyTrunc]

/-- C3 (amended): `process_token` alerts a known, not-yet-alerted token iff
every hard-coded threshold check of its body passes — FDV between 5,000 and
2,000,000 (not the configured `MAX_FDVS_SNIPE`), 5-minute volume at most
25,000 (not `MAX_VOL_SNIPE`), at least 5 holders (not `MIN_HOLDERS`),
liquidity at least 20% of FDV, age inside the dynamic window, and the
symbol passing every blacklist heuristic; and whenever any check fails the
call returns with no alert and `token_db` unchanged. -/
theorem claim_C3_filter_hardcoded :
    (∀ db wl mint now info, alookup db mint = some info →
      (((processToken db wl mint now).event).isSome ↔
        info.alerted = false ∧
        ageOk info.fdv (pyTrunc (now - info.launched)) ∧
        5000 ≤ info.fdv ∧ info.fdv ≤ 2000000 ∧
        info.vol_5m ≤ 25000 ∧ 5 ≤ info.holders ∧
        info.fdv * (0.20 : ℚ) ≤ info.liquidity ∧
        symbolOk info.symbol info.fdv)) ∧
    (∀ db wl mint now, (processToken db wl mint now).event = none →
      (processToken db wl mint now).db = db) := by
  constructor
  · intro db wl mint now info hlook
    simp only [processToken, hlook]
    split_ifs with h1 h2 h3 h4 h5 h6 h7 <;> simp_all
  · intro db wl mint now h
    simp only [processToken] at h ⊢
    rcases hlook : alookup db mint with - | info <;>
      simp only [hlook] at h ⊢
    split_ifs at h ⊢ <;> simp_all

/-- C3 witness: a concrete token passing every hard-coded check is alerted. -/
theorem claim_C3_filter_hardcoded_witness :
    ((processToken [("M", passTokenC3)] [] "M" 100).event).isSome := by
  refine (claim_C3_filter_hardcoded.1 [("M", passTokenC3)] [] "M" 100
    passTokenC3 (by decide)).mpr ⟨rfl, ?_, ?_, ?_, ?_, ?_, ?_, ?_⟩
  · norm_num [passTokenC3, ageOk, pyTrunc]
  · norm_num [passTokenC3]
  · norm_num [passTokenC3]
  · norm_num [passTokenC3]
  · norm_num [passTokenC3]
  · norm_num [passTokenC3]
  · rw [show passTokenC3.symbol = "Bonkers" from rfl]
    refine ⟨by decide, ?_, by decide, by decide, by decide, by decide,
      by decide, by decide⟩
    rintro ⟨hc, -⟩
    exact absurd hc (by decide)

end Ovalpha

namespace Ovalpha.BotPy

theorem processToken_alerted_mono (db : List (String × TokenInfo))
    (wl : List (String × WatchEntry)) (mint : String) (now : ℚ) (m : String)
    (h : alertedAt db m) : alertedAt (processToken db wl mint now).db m := by
  obtain ⟨i, hl, ha⟩ := h
  rcases hlook : alookup db mint with - | info <;>
    simp only [processToken, hlook]
  · exact ⟨i, hl, ha⟩
  · split_ifs <;> try exact ⟨i, hl, ha⟩
    by_cases hm : m = mint
    · subst hm
      rw [hl] at hlook
      cases hlook
      simp_all
    · exact ⟨i, by rwa [alookup_aset_ne db mint m _ hm], ha⟩

theorem processToken_event_mint (db : List (String × TokenInfo))
    (wl : List (String × WatchEntry)) (mint : String) (now : ℚ)
    (ev : AlertEv) (h : (processToken db wl mint now).event = some ev) :
    ev.mint = mint ∧ alertedAt (processToken db wl mint now).db mint := by
  rcases hlook : alookup db mint with - | info <;>
    simp only [processToken, hlook] at h ⊢
  · cases h
  · split_ifs at h ⊢ <;> cases h
    exact ⟨rfl, ⟨_, alookup_aset_self db mint _, rfl⟩⟩

theorem processToken_no_event_of_alerted (db : List (String × TokenInfo))
    (wl : List (String × WatchEntry)) (mint : String) (now : ℚ)
    (h : alertedAt db mint) : (processToken db wl mint now).event = none := by
  obtain ⟨i, hl, ha⟩ := h
  simp only [processToken, hl, ha, if_pos]

theorem runProcess_no_event_of_alerted (calls : List (String × ℚ)) :
    ∀ db wl m, alertedAt db m →
      ((runProcess db wl calls).events.countP (fun e => e.mint == m)) = 0 := by
  induction calls with
  | nil => intro db wl m _; simp [runProcess]
  | cons c rest ih =>
    intro db wl m h
    obtain ⟨mint, now⟩ := c
    simp only [runProcess, List.countP_append]
    have hmono := processToken_alerted_mono db wl mint now m h
    rw [ih _ _ m hmono]
    rcases hev : (processToken db wl mint now).event with - | ev
    · simp
    · have := processToken_event_mint db wl mint now ev hev
      by_cases hm : ev.mint = m
      · exact absurd hev (by
          rw [processToken_no_event_of_alerted db wl mint now
            (by rwa [← this.1, hm])]
          simp)
      · simp [hm, List.countP_cons]

end Ovalpha.BotPy

namespace Ovalpha.MainPy

theorem snipeStep_sent_mono (ts : List (String × List Level))
    (hist : List (String × List ℚ)) (mint : String) (fdv vol : ℚ)
    (m : String) (l : Level) (h : sentAt ts m l) :
    sentAt (snipeStep ts hist mint fdv vol).ts m l := by
  simp only [snipeStep, sentAt] at h ⊢
  rcases levelOf fdv vol (pushMax4 ((alookup hist mint).getD []) vol) with
    - | l'
  · exact h
  · simp only []
    split_ifs
    · exact h
    · by_cases hm : m = mint
      · subst hm
        rw [alookup_aset_self]
        simp only [Option.getD_some]
        right
        simpa using h
      · rwa [alookup_aset_ne ts mint m _ hm]

theorem snipeStep_event_sent (ts : List (String × List Level))
    (hist : List (String × List ℚ)) (mint : String) (fdv vol : ℚ)
    (m : String) (l : Level)
    (h : (snipeStep ts hist mint fdv vol).event = some (m, l)) :
    m = mint ∧ sentAt (snipeStep ts hist mint fdv vol).ts m l := by
  rcases hlev : levelOf fdv vol (pushMax4 ((alookup hist mint).getD []) vol)
      with - | l' <;>
    simp only [snipeStep, sentAt, hlev] at h ⊢
  · cases h
  · split_ifs at h ⊢ with hs
    all_goals cases h
    all_goals refine ⟨rfl, ?_⟩
    all_goals
      show l ∈ (alookup
        (aset ts mint (l :: (alookup ts mint).getD [])) mint).getD []
    all_goals rw [alookup_aset_self]
    all_goals simp

theorem snipeStep_no_event_of_sent (ts : List (String × List Level))
    (hist : List (String × List ℚ)) (mint : String) (fdv vol : ℚ)
    (l : Level) (h : sentAt ts mint l) :
    (snipeStep ts hist mint fdv vol).event ≠ some (mint, l) := by
  simp only [snipeStep, sentAt] at h ⊢
  rcases levelOf fdv vol (pushMax4 ((alookup hist mint).getD []) vol) with
    - | l'
  · simp
  · simp only []
    split_ifs with hs
    · simp
    · intro hc
      cases hc
      exact hs h

theorem runSnipe_no_event_of_sent (calls : List (String × ℚ × ℚ)) :
    ∀ ts hist m l, sentAt ts m l →
      ((runSnipe ts hist calls).events.countP
        (fun e => e == (m, l))) = 0 := by
  induction calls with
  | nil => intro ts hist m l _; simp [runSnipe]
  | cons c rest ih =>
    intro ts hist m l h
    obtain ⟨mint, fdv, vol⟩ := c
    simp only [runSnipe, List.countP_append]
    have hmono := snipeStep_sent_mono ts hist mint fdv vol m l h
    rw [ih _ _ m l hmono]
    rcases hev : (snipeStep ts hist mint fdv vol).event with - | ev
    · simp
    · by_cases hm : ev = (m, l)
      · subst hm
        have := snipeStep_event_sent ts hist mint fdv vol m l hev
        exact absurd hev (by
          have hmm : m = mint := this.1
          subst hmm
          exact snipeStep_no_event_of_sent ts hist m fdv vol l h)
      · simp [List.countP_cons, hm]

end Ovalpha.MainPy

namespace Ovalpha

/-- C1: no mint is alerted twice.  In bot.py, over any sequence of
`process_token` calls from any starting `token_db`/`watchlist`, the alerts
handed to `broadcast_alert` contain each mint at most once: the call
returns immediately when `token_db[mint]["alerted"]` is set, and sets it
before broadcasting.  In main.py, over any sequence of snipe-logic passes,
each `(mint, level)` pair with level in {snipe, confirm, pump} is broadcast
at most once, enforced by the per-mint `token_state` "sent" set. -/
theorem claim_C1_alert_once :
    (∀ (db : List (String × BotPy.TokenInfo))
        (wl : List (String × BotPy.WatchEntry))
        (calls : List (String × ℚ)) (m : String),
      ((BotPy.runProcess db wl calls).events.countP
        (fun e => e.mint == m)) ≤ 1) ∧
    (∀ (ts : List (String × List MainPy.Level))
        (hist : List (String × List ℚ))
        (calls : List (String × ℚ × ℚ)) (m : String) (l : MainPy.Level),
      ((MainPy.runSnipe ts hist calls).events.countP
        (fun e => e == (m, l))) ≤ 1) := by
  constructor
  · intro db wl calls m
    induction calls generalizing db wl with
    | nil => simp [BotPy.runProcess]
    | cons c rest ih =>
      obtain ⟨mint, now⟩ := c
      simp only [BotPy.runProcess, List.countP_append]
      rcases hev : (BotPy.processToken db wl mint now).event with - | ev
      · simpa using ih _ _
      · by_cases hm : ev.mint = m
        · have h2 := BotPy.processToken_event_mint db wl mint now ev hev
          have hmm : mint = m := h2.1.symm.trans hm
          rw [BotPy.runProcess_no_event_of_alerted rest _ _ m
            (hmm ▸ h2.2)]
          simp [List.countP_cons, hm]
        · simpa [List.countP_cons, hm] using ih _ _
  · intro ts hist calls m l
    induction calls generalizing ts hist with
    | nil => simp [MainPy.runSnipe]
    | cons c rest ih =>
      obtain ⟨mint, fdv, vol⟩ := c
      simp only [MainPy.runSnipe, List.countP_append]
      rcases hev : (MainPy.snipeStep ts hist mint fdv vol).event with - | ev
      · simpa using ih _ _
      · by_cases hm : ev = (m, l)
        · subst hm
          have h2 := MainPy.snipeStep_event_sent ts hist mint fdv vol m l hev
          rw [MainPy.runSnipe_no_event_of_sent rest _ _ m l h2.2]
          simp [List.countP_cons]
        · simpa [List.countP_cons, hm] using ih _ _

/-- Delivery flag of the bot.py per-user alert body. -/
theorem broadcastAlertUser_snd (ok : Bool) (u : BotPy.User) :
    (BotPy.broadcastAlertUser ok u).2 =
      (ok && (u.paid || decide (u.free_alerts > 0))) := by
  simp only [BotPy.broadcastAlertUser]
  split_ifs with h1 h2 <;> simp_all

/-- Delivery flag of the main.py per-user alert body. -/
theorem broadcastUser_snd (u : MainPy.User) :
    (MainPy.broadcastUser u).2 =
      (u.chat_id.isSome && (u.paid || decide (u.free_alerts > 0))) := by
  simp only [MainPy.broadcastUser]
  rcases u.chat_id with - | c <;> simp only [Option.isSome]
  · simp
  · split_ifs with h1 <;> simp_all

/-- C2 (counterexample): a paid user without a `chat_id` receives nothing
from main.py's `broadcast`, and their record is returned unchanged, so an
alert broadcast is not delivered to every paid user. -/
theorem claim_C2_counterexample :
    cexUserC2.paid = true ∧
    (MainPy.broadcast [(1, cexUserC2)]).2 = [] ∧
    (MainPy.broadcast [(1, cexUserC2)]).1 = [(1, cexUserC2)] := by
  refine ⟨rfl, rfl, rfl⟩

/-- C2 (amended): with Telegram sends succeeding, bot.py's
`broadcast_alert` delivers exactly to the users who are paid or have
`free_alerts > 0`; main.py's `broadcast` additionally requires `chat_id`
to be set and skips users without one even when they are paid.  In both,
a non-paid recipient's `free_alerts` drops by exactly one, a paid
recipient's record is unchanged, and a skipped user's record is
unchanged. -/
theorem claim_C2_broadcast_gating :
    (∀ u : BotPy.User,
      (BotPy.broadcastAlertUser true u).2 =
        (u.paid || decide (u.free_alerts > 0)) ∧
      (u.paid = true → (BotPy.broadcastAlertUser true u).1 = u) ∧
      (u.paid = false → u.free_alerts > 0 →
        (BotPy.broadcastAlertUser true u).1 =
          { u with free_alerts := u.free_alerts - 1 }) ∧
      ((BotPy.broadcastAlertUser true u).2 = false →
        (BotPy.broadcastAlertUser true u).1 = u)) ∧
    (∀ u : MainPy.User,
      (MainPy.broadcastUser u).2 =
        (u.chat_id.isSome && (u.paid || decide (u.free_alerts > 0))) ∧
      (u.paid = true → u.chat_id.isSome = true →
        (MainPy.broadcastUser u).1 = u) ∧
      (u.paid = false → u.chat_id.isSome = true → u.free_alerts > 0 →
        (MainPy.broadcastUser u).1 =
          { u with free_alerts := u.free_alerts - 1 }) ∧
      ((MainPy.broadcastUser u).2 = false →
        (MainPy.broadcastUser u).1 = u)) ∧
    (∀ users : List (ℤ × BotPy.User),
      (BotPy.broadcast_alert (fun _ => true) users).2 =
        (users.filter
          (fun p => p.2.paid || decide (p.2.free_alerts > 0))).map
            Prod.fst) ∧
    (∀ users : List (ℤ × MainPy.User),
      (MainPy.broadcast users).2 =
        (users.filter (fun p =>
          p.2.chat_id.isSome
            && (p.2.paid || decide (p.2.free_alerts > 0)))).map
              Prod.fst) := by
  refine ⟨?_, ?_, ?_, ?_⟩
  · intro u
    refine ⟨broadcastAlertUser_snd true u, ?_, ?_, ?_⟩
    · intro hp
      simp [BotPy.broadcastAlertUser, hp]
    · intro hp hf
      simp [BotPy.broadcastAlertUser, hp, hf]
    · intro hd
      rw [broadcastAlertUser_snd] at hd
      simp only [Bool.true_and] at hd
      simp [BotPy.broadcastAlertUser, hd]
  · intro u
    refine ⟨broadcastUser_snd u, ?_, ?_, ?_⟩
    · intro hp hc
      rcases hch : u.chat_id with - | c
      · simp [hch] at hc
      · simp [MainPy.broadcastUser, hch, hp]
    · intro hp hc hf
      rcases hch : u.chat_id with - | c
      · simp [hch] at hc
      · simp [MainPy.broadcastUser, hch, hp, hf]
    · intro hd
      rw [broadcastUser_snd] at hd
      rcases hch : u.chat_id with - | c
      · simp [MainPy.broadcastUser, hch]
      · rw [hch] at hd
        simp only [Option.isSome, Bool.true_and] at hd
        simp [MainPy.broadcastUser, hch, hd]
  · intro users
    induction users with
    | nil => rfl
    | cons p t ih =>
      obtain ⟨uid, u⟩ := p
      simp only [BotPy.broadcast_alert, List.filter_cons]
      rw [show (BotPy.broadcast_alert (fun _ => true) t) =
        (BotPy.broadcast_alert (fun _ => true) t) from rfl]
      by_cases he : (u.paid || decide (u.free_alerts > 0)) = true
      · simp [broadcastAlertUser_snd, he, ih]
      · simp [broadcastAlertUser_snd, he, ih,
          Bool.not_eq_true _ ▸ he]
  · intro users
    induction users with
    | nil => rfl
    | cons p t ih =>
      obtain ⟨uid, u⟩ := p
      simp only [MainPy.broadcast, List.filter_cons]
      by_cases he :
          (u.chat_id.isSome && (u.paid || decide (u.free_alerts > 0)))
            = true
      · simp [broadcastUser_snd, he, ih]
      · simp [broadcastUser_snd, he, ih]

/-- C2 witness: delivering one alert to a concrete non-paid user drops the
free-alert counter from 2 to 1. -/
theorem claim_C2_broadcast_gating_witness :
    (MainPy.broadcastUser wUserC2).1.free_alerts = 1 := by
  have h := (claim_C2_broadcast_gating.2.1 wUserC2).2.2.1 rfl rfl (by decide)
  rw [h]
  decide

/-- Per-user non-negativity step for bot.py's `broadcast_alert`. -/
theorem broadcastAlertUser_free_nonneg (ok : Bool) (u : BotPy.User)
    (h : 0 ≤ u.free_alerts) :
    0 ≤ (BotPy.broadcastAlertUser ok u).1.free_alerts := by
  simp only [BotPy.broadcastAlertUser]
  split_ifs with h1 h2 h3 <;> simp_all <;> omega

/-- Per-user non-negativity step for main.py's `broadcast`. -/
theorem broadcastUser_free_nonneg (u : MainPy.User)
    (h : 0 ≤ u.free_alerts) :
    0 ≤ (MainPy.broadcastUser u).1.free_alerts := by
  simp only [MainPy.broadcastUser]
  rcases u.chat_id with - | c
  · exact h
  · simp only []
    split_ifs with h1 h2 <;> simp_all <;> omega

/-- C10: alert delivery preserves `free_alerts >= 0`.  Both broadcast
bodies decrement only a non-paid user with a strictly positive counter, so
no sequence of broadcasts (with any pattern of send successes in bot.py)
drives a user's counter below zero. -/
theorem claim_C10_free_alerts_nonneg :
    (∀ (oks : List Bool) (u : BotPy.User), 0 ≤ u.free_alerts →
      0 ≤ (oks.foldl
        (fun v ok => (BotPy.broadcastAlertUser ok v).1) u).free_alerts) ∧
    (∀ (n : ℕ) (u : MainPy.User), 0 ≤ u.free_alerts →
      0 ≤ ((fun v => (MainPy.broadcastUser v).1)^[n] u).free_alerts) := by
  constructor
  · intro oks
    induction oks with
    | nil => intro u h; exact h
    | cons ok t ih =>
      intro u h
      exact ih _ (broadcastAlertUser_free_nonneg ok u h)
  · intro n
    induction n with
    | zero => intro u h; exact h
    | succ m ih =>
      intro u h
      rw [Function.iterate_succ_apply]
      exact ih _ (broadcastUser_free_nonneg u h)

/-- C10 witness: three consecutive deliveries to a user with one free
alert leave the counter non-negative. -/
theorem claim_C10_free_alerts_nonneg_witness :
    0 ≤ ((fun v => (MainPy.broadcastUser v).1)^[3] wUserC10).free_alerts :=
  claim_C10_free_alerts_nonneg.2 3 wUserC10 (by decide)

/-- C7: the auto-sell timer is a pure simulation.  For an open trade and a
multiplier drawn from [0.5, 4.0], the trade closes exactly when the
multiplier reaches the take-profit or falls to `1 - sl`; on closing the
recorded profit is `cost_usd * (mult - 1)` minus a 1% fee on that profit,
revenue grows by the fee, the wins counter increments iff the multiplier
is at least 1.5, and otherwise trade, revenue and wins are unchanged. -/
theorem claim_C7_auto_sell_simulation :
    ∀ (t : BotPy.Trade) (mult revenue : ℚ) (wins : ℕ),
      t.status = "open" → (0.5 : ℚ) ≤ mult → mult ≤ 4 →
      ((BotPy.checkAutoSellTrade t mult revenue wins).1.status = "sold" ↔
        (t.tp ≤ mult ∨ mult ≤ 1 - t.sl)) ∧
      ((t.tp ≤ mult ∨ mult ≤ 1 - t.sl) →
        (BotPy.checkAutoSellTrade t mult revenue wins).1 =
          { t with
              status := "sold"
              profit := some (t.cost_usd * (mult - 1) -
                t.cost_usd * (mult - 1) * (0.01 : ℚ)) } ∧
        (BotPy.checkAutoSellTrade t mult revenue wins).2.1 =
          revenue + t.cost_usd * (mult - 1) * (0.01 : ℚ) ∧
        ((BotPy.checkAutoSellTrade t mult revenue wins).2.2 = wins + 1 ↔
          (1.5 : ℚ) ≤ mult)) ∧
      (¬(t.tp ≤ mult ∨ mult ≤ 1 - t.sl) →
        BotPy.checkAutoSellTrade t mult revenue wins =
          (t, revenue, wins)) := by
  intro t mult revenue wins hst h05 h4
  simp only [BotPy.checkAutoSellTrade, hst]
  split_ifs with h1 h2 h3 <;> simp_all

/-- C7 witness: at multiplier 2.5 the concrete trade closes as "sold" and
counts a win. -/
theorem claim_C7_auto_sell_simulation_witness :
    (BotPy.checkAutoSellTrade t0C7 (2.5 : ℚ) 0 0).1.status = "sold" ∧
    (BotPy.checkAutoSellTrade t0C7 (2.5 : ℚ) 0 0).2.2 = 1 := by
  have h := claim_C7_auto_sell_simulation t0C7 (2.5 : ℚ) 0 0 rfl
    (by norm_num) (by norm_num)
  have hc : t0C7.tp ≤ (2.5 : ℚ) ∨ (2.5 : ℚ) ≤ 1 - t0C7.sl :=
    Or.inl (by norm_num [t0C7])
  exact ⟨h.1.mpr hc, ((h.2.1 hc).2.2).mpr (by norm_num)⟩

/-- C5 (counterexample): the trade created by a successful purchase has
status "pending" — not "open", and not "sold" — so a trade record with
status outside {open, sold} exists as soon as a purchase completes. -/
theorem claim_C5_counterexample :
    ((BotPy.jupiter_buy u0C5 "M1" 1 0 0 (some respC5) 7).user.trades.map
      (fun t => t.status)) = ["pending"] ∧
    ("pending" : String) ≠ "open" ∧ ("pending" : String) ≠ "sold" := by
  refine ⟨rfl, by decide, by decide⟩

/-- C5 (amended): every trade the purchase flow appends is created with
status "pending" (the existing trades are untouched), and the auto-sell
timer either leaves a trade's status unchanged or flips an "open" trade to
"sold"; hence all statuses stay within {pending, open, sold}, and a trade
created by this revision's purchase flow is never touched by the
auto-sell timer, which only closes "open" trades. -/
theorem claim_C5_trade_status :
    (∀ (u : BotPy.User) (mint : String) (amt rev : ℚ) (tt : ℕ)
        (net : Option BotPy.JupResponses) (now : ℚ),
      ((BotPy.jupiter_buy u mint amt rev tt net now).user.trades.take
        u.trades.length) = u.trades ∧
      (((BotPy.jupiter_buy u mint amt rev tt net now).user.trades.drop
        u.trades.length).all (fun t => t.status == "pending")) = true) ∧
    (∀ (t : BotPy.Trade) (mult rev : ℚ) (wins : ℕ),
      (BotPy.checkAutoSellTrade t mult rev wins).1.status = t.status ∨
      ((BotPy.checkAutoSellTrade t mult rev wins).1.status = "sold" ∧
        t.status = "open")) := by
  constructor
  · intro u mint amt rev tt net now
    simp only [BotPy.jupiter_buy]
    split_ifs with h1
    · simp
    · rcases net with - | resp
      · simp
      · simp only []
        split_ifs with h2
        · simp
        · constructor
          · simp
          · simp
  · intro t mult rev wins
    simp only [BotPy.checkAutoSellTrade]
    split_ifs with h1 h2 <;>
      first
        | exact Or.inl rfl
        | exact Or.inr ⟨rfl, not_not.mp h1⟩

/-- C6 (counterexample): no user of these revisions stores a private key —
the user record holds only a public wallet address — and a buy request by
a user without a connected wallet yields neither a signed transaction nor
a Phantom deep link: the reply is "Connect wallet first.". -/
theorem claim_C6_counterexample :
    u0C6.wallet = none ∧
    (BotPy.jupiter_buy u0C6 "M" 1 0 0 (some respC6) 0).reply =
      BotPy.BuyResult.walletMissing ∧
    BotPy.isDeepLinkB
      (BotPy.jupiter_buy u0C6 "M" 1 0 0 (some respC6) 0).reply = false := by
  refine ⟨rfl, rfl, rfl⟩

/-- C6 (amended): the purchase flow never signs or submits a transaction
itself — user records store only a public wallet address, and the result
type of the embedded flow has no signed-transaction outcome.  A buy by a
user without a connected wallet is refused; when the wallet is connected
and Jupiter returns a route and a swap transaction, bot.py's `jupiter_buy`
replies with the Phantom `signAndSendTransaction` deep link over the
serialized transaction, and main.py's `handle_amount` does the same over
the percent-escaped transaction for a fresh pending buy of at least one
dollar. -/
theorem claim_C6_purchase_deeplink :
    (∀ (u : BotPy.User) (mint : String) (amt rev : ℚ) (tt : ℕ)
        (net : Option BotPy.JupResponses) (now : ℚ), u.wallet = none →
      (BotPy.jupiter_buy u mint amt rev tt net now).reply =
        BotPy.BuyResult.walletMissing) ∧
    (∀ (u : BotPy.User) (mint : String) (amt rev : ℚ) (tt : ℕ)
        (resp : BotPy.JupResponses) (now : ℚ),
      u.wallet ≠ none → resp.routes ≠ [] →
      (BotPy.jupiter_buy u mint amt rev tt (some resp) now).reply =
        BotPy.BuyResult.deepLink
          ("https://phantom.app/ul/v1/signAndSendTransaction?tx="
            ++ resp.swapTxB64 ++ "&redirect_link=https://t.me/"
            ++ BotPy.BOT_USERNAME)) ∧
    (∀ (u : MainPy.User) (text : Option ℚ) (now : ℚ)
        (net : MainPy.SwapNet) (pending : MainPy.PendingBuy) (usd : ℚ)
        (tx : String),
      u.pending_buy = some pending → ¬(now - pending.time > 60) →
      text = some usd → ¬(usd < 1) → net.swapTransaction = some tx →
      (MainPy.handle_amount u text now net).2 =
        MainPy.AmountResult.deepLink
          ("https://phantom.app/ul/v1/signAndSendTransaction?tx="
            ++ pyQuote tx ++ "&cluster=mainnet-beta")) := by
  refine ⟨?_, ?_, ?_⟩
  · intro u mint amt rev tt net now hw
    simp [BotPy.jupiter_buy, hw]
  · intro u mint amt rev tt resp now hw hr
    simp [BotPy.jupiter_buy, hw, hr]
  · intro u text now net pending usd tx hp hfresh htext husd htx
    simp [MainPy.handle_amount, hp, hfresh, htext, husd, htx]

/-- C6 witness: a concrete successful buy yields exactly the Phantom
deep link. -/
theorem claim_C6_purchase_deeplink_witness :
    (BotPy.jupiter_buy uWC6 "M" 1 0 0 (some respC6) 0).reply =
      BotPy.BuyResult.deepLink
        ("https://phantom.app/ul/v1/signAndSendTransaction?tx=TX64"
          ++ "&redirect_link=https://t.me/onionx_bot") := by
  have h := claim_C6_purchase_deeplink.2.1 uWC6 "M" 1 0 0 respC6 0
    (by decide) (by decide)
  rw [h]
  rfl

/-- The `/pay` loop finds a transaction iff the list holds one matching
the TXID case-insensitively with symbol USDT and enough value. -/
theorem findPayTx_isSome_iff (txid : String) (l : List MainPy.BscTx) :
    (MainPy.findPayTx txid l).isSome ↔
      ∃ tx ∈ l, pyLower tx.hash = pyLower txid ∧
        tx.tokenSymbol = "USDT" ∧
        MainPy.PRICE_PREMIUM ≤ tx.value / (10 ^ 18 : ℚ) := by
  induction l with
  | nil => simp [MainPy.findPayTx]
  | cons tx rest ih =>
    simp only [MainPy.findPayTx]
    split_ifs with h1 h2
    · rw [ih]
      constructor
      · rintro ⟨x, hx, hc⟩
        exact ⟨x, List.mem_cons_of_mem _ hx, hc⟩
      · rintro ⟨x, hx, hc⟩
        rcases List.mem_cons.mp hx with rfl | hx'
        · exact absurd hc.1 h1
        · exact ⟨x, hx', hc⟩
    · simp only [Option.isSome_some, true_iff]
      exact ⟨tx, List.mem_cons_self tx rest, not_not.mp h1, h2.1, h2.2⟩
    · rw [ih]
      constructor
      · rintro ⟨x, hx, hc⟩
        exact ⟨x, List.mem_cons_of_mem _ hx, hc⟩
      · rintro ⟨x, hx, hc⟩
        rcases List.mem_cons.mp hx with rfl | hx'
        · exact absurd ⟨hc.2.1, hc.2.2⟩ h2
        · exact ⟨x, hx', hc⟩

/-- C4: `/pay TXID` activates premium iff BscScan answered status "1" with
a transaction whose hash equals TXID case-insensitively, whose tokenSymbol
is USDT and whose value over 1e18 is at least 29.99; activation sets
`paid`, `paid_until` thirty days ahead and zeroes the free-alert counter;
in every other case — no match, BscScan error or exception — the invoking
user's record is unchanged and an error reply is sent. -/
theorem claim_C4_pay_verification :
    ∀ (resp : Option MainPy.BscResp) (txid : String) (u : MainPy.User)
      (now : ℕ),
      ((MainPy.pay resp txid u now).2 = MainPy.PayReply.activated ↔
        ∃ r, resp = some r ∧ r.status = "1" ∧
          ∃ tx ∈ r.result, pyLower tx.hash = pyLower txid ∧
            tx.tokenSymbol = "USDT" ∧
            MainPy.PRICE_PREMIUM ≤ tx.value / (10 ^ 18 : ℚ)) ∧
      ((MainPy.pay resp txid u now).2 = MainPy.PayReply.activated →
        (MainPy.pay resp txid u now).1 =
          { u with
              paid := true
              paid_until := some (now + 30 * 86400)
              free_alerts := 0 }) ∧
      ((MainPy.pay resp txid u now).2 ≠ MainPy.PayReply.activated →
        (MainPy.pay resp txid u now).1 = u) := by
  intro resp txid u now
  rcases resp with - | r
  · refine ⟨by simp [MainPy.pay], by simp [MainPy.pay], fun _ => rfl⟩
  · rcases hfind : MainPy.findPayTx txid r.result with - | tx <;>
      simp only [MainPy.pay, hfind] <;> split_ifs with hs
    · refine ⟨?_, by simp, fun _ => rfl⟩
      constructor
      · intro h
        simp at h
      · rintro ⟨r', hr', hst, -⟩
        rw [Option.some.injEq] at hr'
        subst hr'
        exact absurd hst hs
    · refine ⟨?_, by simp, fun _ => rfl⟩
      constructor
      · intro h
        simp at h
      · rintro ⟨r', hr', -, hex⟩
        rw [Option.some.injEq] at hr'
        subst hr'
        have hsome := (findPayTx_isSome_iff txid r.result).mpr hex
        rw [hfind] at hsome
        simp at hsome
    · refine ⟨?_, by simp, fun _ => rfl⟩
      constructor
      · intro h
        simp at h
      · rintro ⟨r', hr', hst, -⟩
        rw [Option.some.injEq] at hr'
        subst hr'
        exact absurd hst hs
    · refine ⟨?_, fun _ => rfl, fun hne => absurd rfl hne⟩
      constructor
      · intro _
        exact ⟨r, rfl, not_not.mp hs,
          (findPayTx_isSome_iff txid r.result).mp (by rw [hfind]; rfl)⟩
      · intro _
        rfl

/-- C4 witness: a concrete `/pay` with a matching transaction (hash given
in a different case) activates premium and marks the record paid. -/
theorem claim_C4_pay_verification_witness :
    (MainPy.pay (some rC4) "0xab" uC4 1000).2 =
      MainPy.PayReply.activated ∧
    (MainPy.pay (some rC4) "0xab" uC4 1000).1.paid = true ∧
    (MainPy.pay (some rC4) "0xab" uC4 1000).1.free_alerts = 0 := by
  have h := claim_C4_pay_verification (some rC4) "0xab" uC4 1000
  have hact : (MainPy.pay (some rC4) "0xab" uC4 1000).2 =
      MainPy.PayReply.activated := by
    refine h.1.mpr ⟨rC4, rfl, rfl,
      ⟨{ hash := "0xAB", value := 30 * 10 ^ 18, tokenSymbol := "USDT" },
        ?_, by decide, rfl, ?_⟩⟩
    · simp [rC4]
    · norm_num [MainPy.PRICE_PREMIUM]
  refine ⟨hact, ?_, ?_⟩
  · rw [h.2.1 hact]
  · rw [h.2.1 hact]

/-- Addresses not in the list are untouched by the auto-save pops. -/
theorem foldPop_not_mem (l : List (ℤ × ℕ)) (h0 : ℕ → Option BotPy.User)
    (a : ℕ) (ha : a ∉ l.map Prod.snd) :
    (l.foldl (fun hh p => BotPy.heapModify hh p.2 BotPy.popConnectKeys)
      h0) a = h0 a := by
  induction l generalizing h0 with
  | nil => rfl
  | cons p t ih =>
    simp only [List.map_cons, List.mem_cons] at ha
    push_neg at ha
    simp only [List.foldl_cons]
    rw [ih _ ha.2]
    simp [BotPy.heapModify, ha.1]

/-- Every record at an address listed in `users` is cleared of its connect
keys by the auto-save pops. -/
theorem foldPop_mem (l : List (ℤ × ℕ)) (h0 : ℕ → Option BotPy.User)
    (a : ℕ) (ha : a ∈ l.map Prod.snd) (u : BotPy.User)
    (hu : (l.foldl
      (fun hh p => BotPy.heapModify hh p.2 BotPy.popConnectKeys) h0) a
        = some u) :
    u.connect_challenge = none ∧ u.connect_expiry = none := by
  induction l generalizing h0 with
  | nil => cases ha
  | cons p t ih =>
    simp only [List.foldl_cons] at hu
    by_cases hm : a ∈ t.map Prod.snd
    · exact ih _ hm hu
    · simp only [List.map_cons, List.mem_cons] at ha
      rcases ha with ha | ha
      · subst ha
        rw [foldPop_not_mem t _ _ hm] at hu
        rcases hh : h0 p.2 with - | u0 <;>
          simp only [BotPy.heapModify, hh, if_pos, Option.map_none',
            Option.map_some', reduceIte] at hu
        · cases hu
        · rw [Option.some.injEq] at hu
          subst hu
          exact ⟨rfl, rfl⟩
      · exact absurd ha hm

/-- C8: one `auto_save` tick removes `connect_challenge` and
`connect_expiry` from every live in-memory user record — `data.copy()` is
shallow, so the `u.pop` calls mutate the shared record objects, not a
serialized copy — and therefore the Phantom connect challenge that
`build_connect_url` just stored with a 300-second expiry is destroyed at
the next tick. -/
theorem claim_C8_auto_save_destroys_connect :
    ∀ (h : ℕ → Option BotPy.User) (d : BotPy.DataObj) (uid : ℤ) (now : ℚ)
      (addr : ℕ),
      alookup d.users uid = some addr →
      (∀ u1, (BotPy.build_connect_url h d uid now).1 addr = some u1 →
        u1.connect_expiry = some (now + 300) ∧
        u1.connect_challenge = some ("connect_" ++ toString uid)) ∧
      (∀ a ∈ d.users.map Prod.snd, ∀ u2,
        (BotPy.auto_save (BotPy.build_connect_url h d uid now).1 d).1 a =
          some u2 →
        u2.connect_challenge = none ∧ u2.connect_expiry = none) := by
  intro h d uid now addr hlook
  constructor
  · intro u1 hu1
    rcases hh : h addr with - | u0 <;>
      simp only [BotPy.build_connect_url, hlook, BotPy.heapModify, hh,
        if_true, eq_self_iff_true, Option.map_none', Option.map_some',
        reduceIte] at hu1
    · cases hu1
    · rw [Option.some.injEq] at hu1
      subst hu1
      exact ⟨rfl, rfl⟩
  · intro a ha u2 hu2
    exact foldPop_mem d.users _ a ha u2 hu2

/-- C8 witness: on the concrete one-user state, the record freshly given a
challenge by `build_connect_url` has both connect keys gone after the
very next `auto_save` tick. -/
theorem claim_C8_auto_save_destroys_connect_witness :
    clearedC8.connect_challenge = none ∧
    clearedC8.connect_expiry = none :=
  (claim_C8_auto_save_destroys_connect h0C8 d0C8 7 5 0 (by rfl)).2 0
    (by decide) clearedC8 (by rfl)

/-- C9 (code bug evaluated): an authorized webhook call for a Transfer of
raw value 10^15 — worth far less than 29.99 USDT, since BSC USDT carries
18 decimals (main.py's `/pay` divides the same token's value by 1e18) —
activates premium: the endpoint compares the raw value against
`REQUIRED_USDT = 29.99 * 1e6`, a 6-decimal convention. -/
theorem claim_C9_webhook_dust_activates :
    WebhookPy.usdt_webhook (some "s") (some "s") "0xW"
      (some [{ sender := "0xAbc", recipient := "0xw", value := 10 ^ 15 }])
      [("7", wu0C9)] =
      WebhookPy.WebhookOut.response [("7", wu1C9)] "activated" ∧
    (10 ^ 15 : ℚ) / 10 ^ 18 < MainPy.PRICE_PREMIUM := by
  constructor
  · norm_num +decide [WebhookPy.usdt_webhook, WebhookPy.processLogs,
      WebhookPy.activateFirst, WebhookPy.REQUIRED_USDT, wu0C9, wu1C9]
  · norm_num [MainPy.PRICE_PREMIUM]

end Ovalpha
